import Mathlib

/-!
Verification of the BendingMeasurementTheory repository ("Theory 1" rowing-oar
strain calculator). The two Python source files, `theory1.py` (the class
`OarStrainCalculator`) and `theory1strain.py` (the standalone function
`calc_theory1_strain`), evaluate closed-form Euler-Bernoulli cantilever-beam
formulas. We embed the configuration object as a record of real scalars, each
method as a function of that record, and the standalone function directly.
Methods that in Python read the mutable object `self` are additionally embedded
in explicit state-passing style (suffix `St`) to settle the frame property.
-/

noncomputable section

/-- The parameter fields of `OarStrainCalculator` (set in `__init__`). -/
structure OarConfig where
  x_F : ℝ
  x_b : ℝ
  L_b : ℝ
  D_o_s : ℝ
  D_i_s : ℝ
  h_b : ℝ
  b : ℝ
  e_b : ℝ
  E_s : ℝ
  E_b : ℝ
  GF : ℝ
  V_ex : ℝ
  F : ℝ

/-- The dictionary returned by `OarStrainCalculator.calc_strains`. -/
structure StrainResult where
  x_gauge : ℝ
  y_b : ℝ
  y_top : ℝ
  y_bottom : ℝ
  curvature : ℝ
  eps_top : ℝ
  eps_bottom : ℝ
  delta_eps : ℝ
  eps_top_ustrain : ℝ
  eps_bottom_ustrain : ℝ
  delta_eps_ustrain : ℝ

namespace OarStrainCalculator

/-- Default Concept2 sculling oar parameters from `OarStrainCalculator.__init__`. -/
def init : OarConfig :=
  { x_F := 900, x_b := 200, L_b := 100, D_o_s := 38, D_i_s := 32,
    h_b := 2, b := 12, e_b := 20, E_s := 140000, E_b := 69000,
    GF := 2.15, V_ex := 3.3, F := 1962 }

/-- `calc_shaft_inertia`: shaft second moment of area, `(pi/64)*(D_o**4 - D_i**4)`. -/
def calc_shaft_inertia (self : OarConfig) : ℝ :=
  (Real.pi / 64) * (self.D_o_s ^ 4 - self.D_i_s ^ 4)

/-- `calc_beam_inertia`: beam second moment of area, `(b * h_b**3) / 12`. -/
def calc_beam_inertia (self : OarConfig) : ℝ :=
  (self.b * self.h_b ^ 3) / 12

/-- `calc_gauge_position`: gauge x-position, `x_b + L_b / 2`. -/
def calc_gauge_position (self : OarConfig) : ℝ :=
  self.x_b + self.L_b / 2

/-- `calc_gauge_radii`: the triple `(y_b, y_top, y_bottom)` of gauge y-positions. -/
def calc_gauge_radii (self : OarConfig) : ℝ × ℝ × ℝ :=
  let y_b := self.D_o_s / 2 + self.e_b
  let y_top := y_b + self.h_b / 2
  let y_bottom := y_b - self.h_b / 2
  (y_b, y_top, y_bottom)

/-- `calc_curvature`: shaft curvature at position `x`,
`F * (x_F - x) / (E_s * I_s)` where `I_s = calc_shaft_inertia()`. -/
def calc_curvature (self : OarConfig) (x : ℝ) : ℝ :=
  self.F * (self.x_F - x) / (self.E_s * calc_shaft_inertia self)

/-- `calc_strains`: mechanical strains at the gauge location, as a record
mirroring the returned Python dict. -/
def calc_strains (self : OarConfig) : StrainResult :=
  let x_gauge := calc_gauge_position self
  let r := calc_gauge_radii self
  let y_b := r.1
  let y_top := r.2.1
  let y_bottom := r.2.2
  let kappa := calc_curvature self x_gauge
  let eps_top := kappa * y_top
  let eps_bottom := kappa * y_bottom
  let delta_eps := eps_top - eps_bottom
  { x_gauge := x_gauge, y_b := y_b, y_top := y_top, y_bottom := y_bottom,
    curvature := kappa,
    eps_top := eps_top, eps_bottom := eps_bottom, delta_eps := delta_eps,
    eps_top_ustrain := eps_top * 1000000,
    eps_bottom_ustrain := eps_bottom * 1000000,
    delta_eps_ustrain := delta_eps * 1000000 }

/-- `calc_bridge_output`: normalized bridge output, `(GF / 2) * delta_eps`
where `delta_eps` comes from `calc_strains()`. -/
def calc_bridge_output (self : OarConfig) : ℝ :=
  (self.GF / 2) * (calc_strains self).delta_eps

/-- State-passing embedding of `calc_shaft_inertia`: the method body contains
no assignment to `self`, so the outgoing state is the incoming one. -/
def calc_shaft_inertiaSt (self : OarConfig) : ℝ × OarConfig :=
  ((Real.pi / 64) * (self.D_o_s ^ 4 - self.D_i_s ^ 4), self)

/-- State-passing embedding of `calc_beam_inertia`. -/
def calc_beam_inertiaSt (self : OarConfig) : ℝ × OarConfig :=
  ((self.b * self.h_b ^ 3) / 12, self)

/-- State-passing embedding of `calc_gauge_position`. -/
def calc_gauge_positionSt (self : OarConfig) : ℝ × OarConfig :=
  (self.x_b + self.L_b / 2, self)

/-- State-passing embedding of `calc_gauge_radii`. -/
def calc_gauge_radiiSt (self : OarConfig) : (ℝ × ℝ × ℝ) × OarConfig :=
  let y_b := self.D_o_s / 2 + self.e_b
  let y_top := y_b + self.h_b / 2
  let y_bottom := y_b - self.h_b / 2
  ((y_b, y_top, y_bottom), self)

/-- State-passing embedding of `calc_curvature`, threading the state through
the inner call to `calc_shaft_inertia`. -/
def calc_curvatureSt (self : OarConfig) (x : ℝ) : ℝ × OarConfig :=
  let p := calc_shaft_inertiaSt self
  let I_s := p.1
  let s1 := p.2
  (s1.F * (s1.x_F - x) / (s1.E_s * I_s), s1)

/-- State-passing embedding of `calc_strains`, threading the state through the
inner calls to `calc_gauge_position`, `calc_gauge_radii` and `calc_curvature`. -/
def calc_strainsSt (self : OarConfig) : StrainResult × OarConfig :=
  let p1 := calc_gauge_positionSt self
  let x_gauge := p1.1
  let p2 := calc_gauge_radiiSt p1.2
  let y_b := p2.1.1
  let y_top := p2.1.2.1
  let y_bottom := p2.1.2.2
  let p3 := calc_curvatureSt p2.2 x_gauge
  let kappa := p3.1
  let eps_top := kappa * y_top
  let eps_bottom := kappa * y_bottom
  let delta_eps := eps_top - eps_bottom
  ({ x_gauge := x_gauge, y_b := y_b, y_top := y_top, y_bottom := y_bottom,
     curvature := kappa,
     eps_top := eps_top, eps_bottom := eps_bottom, delta_eps := delta_eps,
     eps_top_ustrain := eps_top * 1000000,
     eps_bottom_ustrain := eps_bottom * 1000000,
     delta_eps_ustrain := delta_eps * 1000000 }, p3.2)

/-- State-passing embedding of `calc_bridge_output`. -/
def calc_bridge_outputSt (self : OarConfig) : ℝ × OarConfig :=
  let p := calc_strainsSt self
  ((p.2.GF / 2) * p.1.delta_eps, p.2)

end OarStrainCalculator

/-- The dictionary returned by the standalone `calc_theory1_strain`. -/
structure Theory1Result where
  eps_top_ustrain : ℝ
  eps_bottom_ustrain : ℝ
  delta_eps_ustrain : ℝ
  eps_top : ℝ
  eps_bottom : ℝ
  delta_eps : ℝ

/-- The standalone function `calc_theory1_strain` from `theory1strain.py`:
strains computed directly as `F*(x_F - x_gauge)*y/(E_s*I_s)`. -/
def calc_theory1_strain (F x_F x_b L_b D_o_s D_i_s h_b e_b E_s : ℝ) : Theory1Result :=
  let x_gauge := x_b + L_b / 2
  let I_s := (Real.pi / 64) * (D_o_s ^ 4 - D_i_s ^ 4)
  let y_b := D_o_s / 2 + e_b
  let y_top := y_b + h_b / 2
  let y_bottom := y_b - h_b / 2
  let eps_top := F * (x_F - x_gauge) * y_top / (E_s * I_s)
  let eps_bottom := F * (x_F - x_gauge) * y_bottom / (E_s * I_s)
  let delta_eps := F * (x_F - x_gauge) * h_b / (E_s * I_s)
  { eps_top_ustrain := eps_top * 1000000,
    eps_bottom_ustrain := eps_bottom * 1000000,
    delta_eps_ustrain := delta_eps * 1000000,
    eps_top := eps_top, eps_bottom := eps_bottom, delta_eps := delta_eps }

/-- Replace the applied force `F` of a configuration (as the force sweep
`parametric_study_force` does via `calc.F = F`). -/
def setF (c : OarConfig) (F : ℝ) : OarConfig := { c with F := F }

/-- Replace the gauge factor `GF` of a configuration. -/
def setGF (c : OarConfig) (g : ℝ) : OarConfig := { c with GF := g }

/-- Replace the beam width `b` and the beam modulus `E_b` of a configuration. -/
def setBeamWidthModulus (c : OarConfig) (w m : ℝ) : OarConfig :=
  { c with b := w, E_b := m }

open OarStrainCalculator

/-- C1: for every identical assignment of the shared inputs, the
object-oriented `calc_strains` (curvature-then-offset) and the standalone
`calc_theory1_strain` (direct strain formula) produce equal `eps_top`,
`eps_bottom`, `delta_eps` and the corresponding microstrain fields. -/
theorem calc_theory1_strain_refines_calc_strains (c : OarConfig) :
    (calc_theory1_strain c.F c.x_F c.x_b c.L_b c.D_o_s c.D_i_s c.h_b c.e_b c.E_s).eps_top
      = (calc_strains c).eps_top ∧
    (calc_theory1_strain c.F c.x_F c.x_b c.L_b c.D_o_s c.D_i_s c.h_b c.e_b c.E_s).eps_bottom
      = (calc_strains c).eps_bottom ∧
    (calc_theory1_strain c.F c.x_F c.x_b c.L_b c.D_o_s c.D_i_s c.h_b c.e_b c.E_s).delta_eps
      = (calc_strains c).delta_eps ∧
    (calc_theory1_strain c.F c.x_F c.x_b c.L_b c.D_o_s c.D_i_s c.h_b c.e_b c.E_s).eps_top_ustrain
      = (calc_strains c).eps_top_ustrain ∧
    (calc_theory1_strain c.F c.x_F c.x_b c.L_b c.D_o_s c.D_i_s c.h_b c.e_b c.E_s).eps_bottom_ustrain
      = (calc_strains c).eps_bottom_ustrain ∧
    (calc_theory1_strain c.F c.x_F c.x_b c.L_b c.D_o_s c.D_i_s c.h_b c.e_b c.E_s).delta_eps_ustrain
      = (calc_strains c).delta_eps_ustrain := by
  simp only [calc_theory1_strain, calc_strains, calc_curvature, calc_gauge_position,
    calc_gauge_radii, calc_shaft_inertia]
  refine ⟨by ring, by ring, by ring, by ring, by ring, by ring⟩

/-- C2: internal consistency: in both implementations `delta_eps` equals
`eps_top - eps_bottom` and also equals the curvature `kappa` times the beam
height `h_b`. -/
theorem delta_eps_consistency (c : OarConfig) :
    (calc_strains c).delta_eps = (calc_strains c).eps_top - (calc_strains c).eps_bottom ∧
    (calc_strains c).delta_eps = (calc_strains c).curvature * c.h_b ∧
    (calc_theory1_strain c.F c.x_F c.x_b c.L_b c.D_o_s c.D_i_s c.h_b c.e_b c.E_s).delta_eps
      = (calc_theory1_strain c.F c.x_F c.x_b c.L_b c.D_o_s c.D_i_s c.h_b c.e_b c.E_s).eps_top
        - (calc_theory1_strain c.F c.x_F c.x_b c.L_b c.D_o_s c.D_i_s c.h_b c.e_b c.E_s).eps_bottom ∧
    (calc_theory1_strain c.F c.x_F c.x_b c.L_b c.D_o_s c.D_i_s c.h_b c.e_b c.E_s).delta_eps
      = calc_curvature c (calc_gauge_position c) * c.h_b := by
  simp only [calc_theory1_strain, calc_strains, calc_curvature, calc_gauge_position,
    calc_gauge_radii, calc_shaft_inertia]
  refine ⟨trivial, by ring, by ring, by ring⟩

/-- C3: the computation is linear in the applied force: scaling `F` by `k`
scales the curvature, all strain outputs and the bridge output by `k`, and at
`F = 0` the curvature, all strain outputs and the bridge output are `0`, for
both implementations. -/
theorem linear_in_force (c : OarConfig) (k x : ℝ) :
    calc_curvature (setF c (k * c.F)) x = k * calc_curvature c x ∧
    (calc_strains (setF c (k * c.F))).eps_top = k * (calc_strains c).eps_top ∧
    (calc_strains (setF c (k * c.F))).eps_bottom = k * (calc_strains c).eps_bottom ∧
    (calc_strains (setF c (k * c.F))).delta_eps = k * (calc_strains c).delta_eps ∧
    calc_bridge_output (setF c (k * c.F)) = k * calc_bridge_output c ∧
    (calc_theory1_strain (k * c.F) c.x_F c.x_b c.L_b c.D_o_s c.D_i_s c.h_b c.e_b c.E_s).delta_eps
      = k * (calc_theory1_strain c.F c.x_F c.x_b c.L_b c.D_o_s c.D_i_s c.h_b c.e_b c.E_s).delta_eps ∧
    calc_curvature (setF c 0) x = 0 ∧
    (calc_strains (setF c 0)).eps_top = 0 ∧
    (calc_strains (setF c 0)).eps_bottom = 0 ∧
    (calc_strains (setF c 0)).delta_eps = 0 ∧
    (calc_strains (setF c 0)).eps_top_ustrain = 0 ∧
    (calc_strains (setF c 0)).eps_bottom_ustrain = 0 ∧
    (calc_strains (setF c 0)).delta_eps_ustrain = 0 ∧
    calc_bridge_output (setF c 0) = 0 ∧
    (calc_theory1_strain 0 c.x_F c.x_b c.L_b c.D_o_s c.D_i_s c.h_b c.e_b c.E_s).delta_eps = 0 := by
  simp only [calc_theory1_strain, calc_strains, calc_bridge_output, calc_curvature,
    calc_gauge_position, calc_gauge_radii, calc_shaft_inertia, setF]
  refine ⟨by ring, by ring, by ring, by ring, by ring, by ring, by ring, by ring,
    by ring, by ring, by ring, by ring, by ring, by ring, by ring⟩

theorem pow4_inj_of_nonneg {a b : ℝ} (ha : 0 ≤ a) (hb : 0 ≤ b)
    (h : a ^ 4 = b ^ 4) : a = b := by
  rcases lt_trichotomy a b with hlt | heq | hgt
  · exact absurd h (ne_of_lt (pow_lt_pow_left₀ hlt ha (by norm_num)))
  · exact heq
  · exact absurd h.symm (ne_of_lt (pow_lt_pow_left₀ hgt hb (by norm_num)))

/-- C4 counterexample: over unrestricted real inputs the claimed equivalence
`calc_shaft_inertia = 0 iff D_o_s = D_i_s` fails: with `D_o_s = -1` and
`D_i_s = 1` the second moment is `0` although the diameters differ. -/
theorem shaft_inertia_zero_iff_fails :
    calc_shaft_inertia { init with D_o_s := -1, D_i_s := 1 } = 0 ∧
    ({ init with D_o_s := -1, D_i_s := 1 } : OarConfig).D_o_s
      ≠ ({ init with D_o_s := -1, D_i_s := 1 } : OarConfig).D_i_s := by
  constructor
  · norm_num [calc_shaft_inertia]
  · norm_num

/-- C4 (amended): for nonnegative diameters, `calc_shaft_inertia` is `0` iff
`D_o_s = D_i_s`, and for a fixed `D_i_s` it is strictly increasing in `D_o_s`
over nonnegative outer diameters. -/
theorem shaft_inertia_zero_iff_of_nonneg (c : OarConfig)
    (hDo : 0 ≤ c.D_o_s) (hDi : 0 ≤ c.D_i_s) :
    (calc_shaft_inertia c = 0 ↔ c.D_o_s = c.D_i_s) ∧
    ∀ u v, 0 ≤ u → u < v →
      calc_shaft_inertia { c with D_o_s := u } < calc_shaft_inertia { c with D_o_s := v } := by
  have hpi : (0 : ℝ) < Real.pi / 64 := by positivity
  constructor
  · unfold calc_shaft_inertia
    rw [mul_eq_zero]
    constructor
    · rintro (h | h)
      · exact absurd h hpi.ne'
      · exact pow4_inj_of_nonneg hDo hDi (sub_eq_zero.mp h)
    · intro h
      right
      rw [h]
      ring
  · intro u v hu huv
    simp only [calc_shaft_inertia]
    have h4 : u ^ 4 < v ^ 4 := pow_lt_pow_left₀ huv hu (by norm_num)
    exact mul_lt_mul_of_pos_left (by linarith) hpi

/-- C4 witness: the amended statement instantiated at the default
configuration (diameters 38 and 32) and at outer diameters 38 < 39. -/
theorem shaft_inertia_zero_iff_of_nonneg_witness :
    (calc_shaft_inertia init = 0 ↔ init.D_o_s = init.D_i_s) ∧
    calc_shaft_inertia { init with D_o_s := 38 }
      < calc_shaft_inertia { init with D_o_s := 39 } := by
  have h := shaft_inertia_zero_iff_of_nonneg init (by norm_num [init]) (by norm_num [init])
  exact ⟨h.1, h.2 38 39 (by norm_num) (by norm_num)⟩

/-- C5: the shaft second moment equals `(pi/64)*(D_o_s^4 - D_i_s^4)`, the
curvature at `x` equals `F*(x_F - x)/(E_s*I_s)`, and there is no special case
for `x_F < x`: exchanging the roles of `x_F` and `x` only reverses the sign. -/
theorem shaft_inertia_and_curvature_formulas (c : OarConfig) (x : ℝ) :
    calc_shaft_inertia c = Real.pi / 64 * (c.D_o_s ^ 4 - c.D_i_s ^ 4) ∧
    calc_curvature c x
      = c.F * (c.x_F - x) / (c.E_s * (Real.pi / 64 * (c.D_o_s ^ 4 - c.D_i_s ^ 4))) ∧
    calc_curvature c x = -(calc_curvature { c with x_F := x } c.x_F) := by
  refine ⟨rfl, rfl, ?_⟩
  simp only [calc_curvature, calc_shaft_inertia]
  ring

/-- C6: the gauge axial position is `x_b + L_b/2`, the beam neutral-axis
offset is `y_b = D_o_s/2 + e_b`, and the top and bottom surface offsets are
`y_b + h_b/2` and `y_b - h_b/2`, with no validation of the inputs. -/
theorem gauge_geometry_formulas (c : OarConfig) :
    calc_gauge_position c = c.x_b + c.L_b / 2 ∧
    (calc_gauge_radii c).1 = c.D_o_s / 2 + c.e_b ∧
    (calc_gauge_radii c).2.1 = (calc_gauge_radii c).1 + c.h_b / 2 ∧
    (calc_gauge_radii c).2.2 = (calc_gauge_radii c).1 - c.h_b / 2 ∧
    (calc_strains c).x_gauge = c.x_b + c.L_b / 2 ∧
    (calc_strains c).y_b = c.D_o_s / 2 + c.e_b ∧
    (calc_strains c).y_top = (calc_strains c).y_b + c.h_b / 2 ∧
    (calc_strains c).y_bottom = (calc_strains c).y_b - c.h_b / 2 :=
  ⟨rfl, rfl, rfl, rfl, rfl, rfl, rfl, rfl⟩

/-- C7: the bridge output equals `(GF/2) * delta_eps` of the strain result
for the same configuration, and it is linear in `GF`: scaling `GF` by `k`
scales the output by `k`; in particular doubling `GF` doubles it. -/
theorem bridge_output_formula (c : OarConfig) (k : ℝ) :
    calc_bridge_output c = c.GF / 2 * (calc_strains c).delta_eps ∧
    calc_bridge_output (setGF c (k * c.GF)) = k * calc_bridge_output c ∧
    calc_bridge_output (setGF c (2 * c.GF)) = 2 * calc_bridge_output c := by
  refine ⟨rfl, ?_, ?_⟩ <;>
    · simp only [calc_bridge_output, calc_strains, calc_curvature, calc_gauge_position,
        calc_gauge_radii, calc_shaft_inertia, setGF]
      ring

/-- C9: two configurations that differ only in the beam width `b` and/or the
beam modulus `E_b` produce identical `calc_strains` and `calc_bridge_output`
results: neither quantity influences any strain or bridge-voltage output. -/
theorem beam_width_modulus_noninterference (c : OarConfig) (w m : ℝ) :
    calc_strains (setBeamWidthModulus c w m) = calc_strains c ∧
    calc_bridge_output (setBeamWidthModulus c w m) = calc_bridge_output c :=
  ⟨rfl, rfl⟩

/-- C10: in the state-passing embedding every calculator operation returns the
configuration unchanged (all thirteen fields keep their values) together with
the same value the read-only embedding computes; the returned result is a
fresh record. -/
theorem calculator_ops_frame (c : OarConfig) (x : ℝ) :
    (calc_shaft_inertiaSt c).2 = c ∧
    (calc_beam_inertiaSt c).2 = c ∧
    (calc_gauge_positionSt c).2 = c ∧
    (calc_gauge_radiiSt c).2 = c ∧
    (calc_curvatureSt c x).2 = c ∧
    (calc_strainsSt c).2 = c ∧
    (calc_bridge_outputSt c).2 = c ∧
    (calc_shaft_inertiaSt c).1 = calc_shaft_inertia c ∧
    (calc_beam_inertiaSt c).1 = calc_beam_inertia c ∧
    (calc_gauge_positionSt c).1 = calc_gauge_position c ∧
    (calc_gauge_radiiSt c).1 = calc_gauge_radii c ∧
    (calc_curvatureSt c x).1 = calc_curvature c x ∧
    (calc_strainsSt c).1 = calc_strains c ∧
    (calc_bridge_outputSt c).1 = calc_bridge_output c :=
  ⟨rfl, rfl, rfl, rfl, rfl, rfl, rfl, rfl, rfl, rfl, rfl, rfl, rfl, rfl⟩

end
